import Mathlib

/-!
Shallow embedding of the content-retirement pipeline implemented in
RedditContentCleaner.py, together with theorems checking the
natural-language specification against it.

Modelling conventions:
  * Remote side effects (backup append, edit, delete, sleep, media GET,
    log lines) are recorded as an explicit event trace.
  * Exceptions raised by the external world (file write during backup,
    the remote edit or delete call, the media GET) are modelled by
    Boolean fault flags carried on each item; a raising step emits no
    completion event and control jumps to the except handler, exactly as
    in the Python try/except structure.
  * random.uniform a b is modelled as a + (b - a) * u for an oracle
    value u supplied by an rng stream; the contract 0 <= u <= 1 is a
    hypothesis where a claim needs it.
  * The paginated content stream is an Except value: error models the
    first page being unavailable (the listing call raising), ok carries
    the finite list of items the traversal observes.
-/

namespace RCC

/-- Runtime configuration, the fields of config.json read by the code. -/
structure Config where
  replacement_text : String
  min_delay : ℚ
  max_delay : ℚ
  excluded_subs : List String
  excluded_keywords : List String
  backup_enabled : Bool
  dry_run : Bool
deriving DecidableEq

/-- A comment as observed from the remote service, plus fault flags for
the external calls made while processing it. -/
structure Comment where
  body : String
  score : Int
  subreddit : String
  created_utc : Int
  replies : Nat
  backupFails : Bool
  editFails : Bool
  deleteFails : Bool
deriving DecidableEq

/-- A post (submission) as observed from the remote service.  PRAW
submissions always expose selftext (empty string for link posts) and
url, so both are plain strings here. -/
structure Post where
  title : String
  selftext : String
  url : String
  score : Int
  subreddit : String
  created_utc : Int
  backupFails : Bool
  editFails : Bool
  deleteFails : Bool
  downloadFails : Bool
deriving DecidableEq

/-- A content item: the hasattr dispatch in the Python code corresponds
to the two variants. -/
inductive Content where
  | comment (c : Comment)
  | post (p : Post)
deriving DecidableEq

/-- Events in the observable side-effect trace of a run. -/
inductive Event where
  | backup (ctype : String)
  | edit (text : String)
  | delete
  | sleep (d : ℚ)
  | download (url : String)
  | logInfo
  | logError
deriving DecidableEq

/-- True on the remote mutation events, edit and delete. -/
def Event.isRemoteMut : Event → Bool
  | .edit _ => true
  | .delete => true
  | _ => false

/-- True on a completed backup append. -/
def Event.isBackup : Event → Bool
  | .backup _ => true
  | _ => false

/-- True on a sleep event. -/
def Event.isSleep : Event → Bool
  | .sleep _ => true
  | _ => false

/-- True on an edit event. -/
def Event.isEdit : Event → Bool
  | .edit _ => true
  | _ => false

/-- True on an attempted media download. -/
def Event.isDownload : Event → Bool
  | .download _ => true
  | _ => false

/-- True on the events suppressed by dry run: edit, delete, sleep. -/
def Event.isEditDeleteOrSleep : Event → Bool
  | .edit _ => true
  | .delete => true
  | .sleep _ => true
  | _ => false

/-- Python str.lower, character by character. -/
def lowerStr (s : String) : String :=
  String.mk (s.toList.map Char.toLower)

/-- Python str.endswith, on the character lists. -/
def endsWithB (s suf : String) : Bool :=
  decide (suf.toList <:+ s.toList)

/-- Python substring containment a in b, on the character lists. -/
def substrB (needle haystack : String) : Bool :=
  decide (needle.toList <:+: haystack.toList)

/-- random.uniform min max, driven by an oracle u in the unit interval. -/
def uniform (a b u : ℚ) : ℚ :=
  a + (b - a) * u

/-- The media extensions recognised by download_media. -/
def media_exts : List String :=
  [".jpg", ".jpeg", ".png", ".gif", ".mp4"]

/-- Whether a url (lowercased first, as in the code) ends in a
recognised media extension. -/
def has_media_ext (url : String) : Bool :=
  media_exts.any fun ext => endsWithB (lowerStr url) ext

/-- Subreddit of an item, content.subreddit.display_name. -/
def Content.sub : Content → String
  | .comment c => c.subreddit
  | .post p => p.subreddit

/-- The text the exclusion check reads: content.selftext if the
attribute exists (posts), else content.body (comments). -/
def Content.exclusionText : Content → String
  | .comment c => c.body
  | .post p => p.selftext

/-- should_exclude_content: subreddit exact match against excluded_subs,
else any excluded keyword as a case-insensitive substring of the
exclusion text. -/
def should_exclude_content (cfg : Config) (x : Content) : Bool :=
  if cfg.excluded_subs.contains x.sub then true
  else cfg.excluded_keywords.any fun kw => substrB (lowerStr kw) (lowerStr x.exclusionText)

/-- download_media: if the lowercased url ends in a media extension, a
GET is issued (the download event); any failure is caught inside and
logged, so this function never raises into its caller. -/
def download_media (p : Post) : List Event :=
  let url := lowerStr p.url
  if media_exts.any (fun ext => endsWithB url ext) then
    Event.download url :: (if p.downloadFails then [Event.logError] else [Event.logInfo])
  else []

/-- The try block of process_comment: returns the events emitted and
whether an exception was raised (true = raised).  backup_content is a
no-op when backup is disabled; a failing append emits no backup event
and raises; dry run stops after the backup; otherwise edit, delete and
the random sleep follow, each raising step cutting the trace short. -/
def comment_try (cfg : Config) (u : ℚ) (c : Comment) : List Event × Bool :=
  if cfg.backup_enabled && c.backupFails then ([], true)
  else
    let evs := if cfg.backup_enabled then [Event.backup "comment"] else []
    if cfg.dry_run then (evs, false)
    else if c.editFails then (evs, true)
    else
      let evs2 := evs ++ [Event.edit cfg.replacement_text]
      if c.deleteFails then (evs2, true)
      else (evs2 ++ [Event.delete, Event.sleep (uniform cfg.min_delay cfg.max_delay u)], false)

/-- process_comment: nothing at all happens for an excluded item (note:
no progress update either); otherwise the try block runs and both the
success and the except path log and advance the progress bar by one.
Returns the event trace and the progress-bar increment. -/
def process_comment (cfg : Config) (u : ℚ) (c : Comment) : List Event × Nat :=
  if should_exclude_content cfg (Content.comment c) then ([], 0)
  else
    let r := comment_try cfg u c
    if r.2 then (r.1 ++ [Event.logError], 1)
    else (r.1 ++ [Event.logInfo], 1)

/-- The try block of process_post: backup, then the media download
(posts always have url), then, outside dry run, an edit only when the
selftext is non-empty, the delete, and the random sleep. -/
def post_try (cfg : Config) (u : ℚ) (p : Post) : List Event × Bool :=
  if cfg.backup_enabled && p.backupFails then ([], true)
  else
    let evs := (if cfg.backup_enabled then [Event.backup "post"] else []) ++ download_media p
    if cfg.dry_run then (evs, false)
    else if p.selftext != "" && p.editFails then (evs, true)
    else
      let evs2 := evs ++ (if p.selftext != "" then [Event.edit cfg.replacement_text] else [])
      if p.deleteFails then (evs2, true)
      else (evs2 ++ [Event.delete, Event.sleep (uniform cfg.min_delay cfg.max_delay u)], false)

/-- process_post, with the same shape as process_comment. -/
def process_post (cfg : Config) (u : ℚ) (p : Post) : List Event × Nat :=
  if should_exclude_content cfg (Content.post p) then ([], 0)
  else
    let r := post_try cfg u p
    if r.2 then (r.1 ++ [Event.logError], 1)
    else (r.1 ++ [Event.logInfo], 1)

/-- Result of one processing traversal: the side-effect trace, the
total progress-bar advance, the processed counter and the removed
counter kept by the command loops. -/
structure PassResult where
  trace : List Event
  progress : Nat
  processed : Nat
  removed : Nat
deriving DecidableEq

/-- The processing loop shared by the comment commands: a selected item
goes through process_comment (consuming one rng sample slot), an
unselected item only advances the progress bar; processed counts every
item, removed counts every selected item. -/
def comments_pass (cfg : Config) (rng : Nat → ℚ) (select : Comment → Bool) :
    List Comment → Nat → PassResult
  | [], _ => ⟨[], 0, 0, 0⟩
  | c :: rest, i =>
    let tail := comments_pass cfg rng select rest (i + 1)
    if select c then
      let r := process_comment cfg (rng i) c
      ⟨r.1 ++ tail.trace, r.2 + tail.progress, 1 + tail.processed, 1 + tail.removed⟩
    else
      ⟨tail.trace, 1 + tail.progress, 1 + tail.processed, tail.removed⟩

/-- The processing loop shared by the post commands. -/
def posts_pass (cfg : Config) (rng : Nat → ℚ) (select : Post → Bool) :
    List Post → Nat → PassResult
  | [], _ => ⟨[], 0, 0, 0⟩
  | p :: rest, i =>
    let tail := posts_pass cfg rng select rest (i + 1)
    if select p then
      let r := process_post cfg (rng i) p
      ⟨r.1 ++ tail.trace, r.2 + tail.progress, 1 + tail.processed, 1 + tail.removed⟩
    else
      ⟨tail.trace, 1 + tail.progress, 1 + tail.processed, tail.removed⟩

/-- The counting pass for comments: any exception while counting is
caught and 0 is returned, so a counting failure is never fatal. -/
def get_comment_count (stream : Except Unit (List Comment)) : Nat :=
  match stream with
  | .error _ => 0
  | .ok items => items.length

/-- The counting pass for posts. -/
def get_post_count (stream : Except Unit (List Post)) : Nat :=
  match stream with
  | .error _ => 0
  | .ok items => items.length

/-- A comment command: count (failure tolerated), then traverse the
processing stream; if the processing stream cannot be established the
exception propagates and the command aborts. -/
def run_comments_command (cfg : Config) (rng : Nat → ℚ) (select : Comment → Bool)
    (countStream procStream : Except Unit (List Comment)) :
    Except Unit (Nat × PassResult) :=
  let total := get_comment_count countStream
  match procStream with
  | .error e => .error e
  | .ok items => .ok (total, comments_pass cfg rng select items 0)

/-- A post command, same shape. -/
def run_posts_command (cfg : Config) (rng : Nat → ℚ) (select : Post → Bool)
    (countStream procStream : Except Unit (List Post)) :
    Except Unit (Nat × PassResult) :=
  let total := get_post_count countStream
  match procStream with
  | .error e => .error e
  | .ok items => .ok (total, posts_pass cfg rng select items 0)

/-- Selection of remove_negative_karma: comment.score < 0. -/
def negative_karma_select (c : Comment) : Bool :=
  decide (c.score < 0)

/-- Selection of remove_old_comments: created strictly before
now - days (in epoch seconds; one day is 86400 seconds). -/
def old_comment_select (now days : Int) (c : Comment) : Bool :=
  decide (c.created_utc < now - days * 86400)

/-- Selection of remove_old_posts. -/
def old_post_select (now days : Int) (p : Post) : Bool :=
  decide (p.created_utc < now - days * 86400)

/-- Selection of remove_low_engagement: score <= 1 and no replies. -/
def low_engagement_select (c : Comment) : Bool :=
  decide (c.score ≤ 1) && decide (c.replies = 0)

/-- remove_negative_karma as a command over the two streams. -/
def remove_negative_karma (cfg : Config) (rng : Nat → ℚ)
    (countStream procStream : Except Unit (List Comment)) :
    Except Unit (Nat × PassResult) :=
  run_comments_command cfg rng negative_karma_select countStream procStream

/-- remove_old_comments as a command over the two streams. -/
def remove_old_comments (cfg : Config) (rng : Nat → ℚ) (now days : Int)
    (countStream procStream : Except Unit (List Comment)) :
    Except Unit (Nat × PassResult) :=
  run_comments_command cfg rng (old_comment_select now days) countStream procStream

/-- remove_old_posts as a command over the two streams. -/
def remove_old_posts (cfg : Config) (rng : Nat → ℚ) (now days : Int)
    (countStream procStream : Except Unit (List Post)) :
    Except Unit (Nat × PassResult) :=
  run_posts_command cfg rng (old_post_select now days) countStream procStream

/-- remove_all_posts: every post is selected. -/
def remove_all_posts (cfg : Config) (rng : Nat → ℚ)
    (countStream procStream : Except Unit (List Post)) :
    Except Unit (Nat × PassResult) :=
  run_posts_command cfg rng (fun _ => true) countStream procStream

/-- Config with the dry_run field replaced. -/
def setDry (cfg : Config) (b : Bool) : Config :=
  ⟨cfg.replacement_text, cfg.min_delay, cfg.max_delay, cfg.excluded_subs,
    cfg.excluded_keywords, cfg.backup_enabled, b⟩

/-- Post with the title field replaced. -/
def setTitle (p : Post) (t : String) : Post :=
  ⟨t, p.selftext, p.url, p.score, p.subreddit, p.created_utc,
    p.backupFails, p.editFails, p.deleteFails, p.downloadFails⟩

/-- Transcription of the exclusion rule as the specification words it,
for comparison with should_exclude_content: the keyword check is
skipped for posts without self-text. -/
def spec_excluded (cfg : Config) (x : Content) : Bool :=
  cfg.excluded_subs.contains x.sub ||
    match x with
    | .comment c => cfg.excluded_keywords.any fun kw => substrB (lowerStr kw) (lowerStr c.body)
    | .post p =>
      if p.selftext = "" then false
      else cfg.excluded_keywords.any fun kw => substrB (lowerStr kw) (lowerStr p.selftext)

/-- Transcription of the age rule as the specification words it:
now - created >= days selects. -/
def spec_age_selected (now days created : Int) : Bool :=
  decide (days * 86400 ≤ now - created)

/-- A default-style configuration for concrete checks: backup on, real run. -/
def cfgReal : Config :=
  ⟨".", 6, 8, [], [], true, false⟩

/-- cfgReal with dry run enabled. -/
def cfgDry : Config :=
  ⟨".", 6, 8, [], [], true, true⟩

/-- Configuration excluding the subreddit banned and the keyword foo. -/
def cfgExcl : Config :=
  ⟨".", 6, 8, ["banned"], ["foo"], true, false⟩

/-- Configuration whose excluded_keywords list holds the empty keyword. -/
def cfgEmptyKw : Config :=
  ⟨".", 6, 8, [], [""], true, false⟩

/-- A clean comment: no faults, not excluded under the configs above. -/
def cClean : Comment :=
  ⟨"hello", -1, "a", 0, 0, false, false, false⟩

/-- A comment whose backup append raises. -/
def cBackupFail : Comment :=
  ⟨"hello", -1, "a", 0, 0, true, false, false⟩

/-- A comment whose edit call raises. -/
def cEditFail : Comment :=
  ⟨"hello", -1, "a", 0, 0, false, true, false⟩

/-- A comment whose delete call raises (after a successful edit). -/
def cDeleteFail : Comment :=
  ⟨"hello", -1, "a", 0, 0, false, false, true⟩

/-- A comment with empty body and no faults. -/
def cEmptyBody : Comment :=
  ⟨"", 0, "a", 0, 0, false, false, false⟩

/-- A negatively scored comment sitting in the excluded subreddit banned. -/
def cBanned : Comment :=
  ⟨"hello", -1, "banned", 0, 0, false, false, false⟩

/-- A comment created at epoch second 0. -/
def cEpoch : Comment :=
  ⟨"hi", 0, "a", 0, 0, false, false, false⟩

/-- A clean media link post with empty selftext. -/
def pMedia : Post :=
  ⟨"title", "", "http://x/img.png", 0, "a", 0, false, false, false, false⟩

/-- A clean text post. -/
def pText : Post :=
  ⟨"title", "body", "http://x/page", 0, "a", 0, false, false, false, false⟩

/-- A post whose selftext holds the keyword foo. -/
def pFoo : Post :=
  ⟨"title", "some foo text", "u", 0, "a", 0, false, false, false, false⟩

/-- A text post whose delete call raises (after a successful edit). -/
def pDeleteFail : Post :=
  ⟨"title", "body", "http://x/page", 0, "a", 0, false, false, true, false⟩

/-- A media link post whose backup append raises. -/
def pMediaBackupFail : Post :=
  ⟨"title", "", "http://x/img.png", 0, "a", 0, true, false, false, false⟩

/-- The rng oracle used in concrete checks. -/
def rng0 : Nat → ℚ :=
  fun _ => 0

theorem uniform_bounds (a b u : ℚ) (hab : a ≤ b) (h0 : 0 ≤ u) (h1 : u ≤ 1) :
    a ≤ uniform a b u ∧ uniform a b u ≤ b := by
  unfold uniform
  constructor
  · nlinarith
  · nlinarith

theorem substrB_iff (n h : String) : substrB n h = true ↔ n.toList <:+: h.toList := by
  simp [substrB]

theorem should_exclude_setDry (cfg : Config) (b : Bool) (x : Content) :
    should_exclude_content (setDry cfg b) x = should_exclude_content cfg x := rfl

theorem setDry_backup_enabled (cfg : Config) (b : Bool) :
    (setDry cfg b).backup_enabled = cfg.backup_enabled := rfl

theorem setDry_dry_run (cfg : Config) (b : Bool) :
    (setDry cfg b).dry_run = b := rfl

theorem setDry_replacement_text (cfg : Config) (b : Bool) :
    (setDry cfg b).replacement_text = cfg.replacement_text := rfl

theorem setDry_min_delay (cfg : Config) (b : Bool) :
    (setDry cfg b).min_delay = cfg.min_delay := rfl

theorem setDry_max_delay (cfg : Config) (b : Bool) :
    (setDry cfg b).max_delay = cfg.max_delay := rfl

theorem comment_backup_gate (cfg : Config) (u : ℚ) (c : Comment)
    (hb : cfg.backup_enabled = true) :
    ((process_comment cfg u c).1.any Event.isRemoteMut = true →
      ((process_comment cfg u c).1.takeWhile (fun e => !e.isRemoteMut)).any
        Event.isBackup = true) ∧
    (c.backupFails = true → (process_comment cfg u c).1.any Event.isRemoteMut = false) := by
  cases hex : should_exclude_content cfg (Content.comment c) <;>
    cases hbf : c.backupFails <;>
      cases hd : cfg.dry_run <;>
        cases he : c.editFails <;>
          cases hdl : c.deleteFails <;>
            simp [process_comment, comment_try, hex, hbf, hd, he, hdl, hb,
              Event.isRemoteMut, Event.isBackup]

theorem post_backup_gate (cfg : Config) (u : ℚ) (p : Post)
    (hb : cfg.backup_enabled = true) :
    ((process_post cfg u p).1.any Event.isRemoteMut = true →
      ((process_post cfg u p).1.takeWhile (fun e => !e.isRemoteMut)).any
        Event.isBackup = true) ∧
    (p.backupFails = true → (process_post cfg u p).1.any Event.isRemoteMut = false) := by
  cases hex : should_exclude_content cfg (Content.post p) <;>
    cases hbf : p.backupFails <;>
      cases hd : cfg.dry_run <;>
        cases hst : p.selftext != "" <;>
          cases he : p.editFails <;>
            cases hdl : p.deleteFails <;>
              cases hdf : p.downloadFails <;>
                cases hm : media_exts.any (fun ext => endsWithB (lowerStr p.url) ext) <;>
                  simp [process_post, post_try, download_media, hex, hbf, hd, hst, he,
                    hdl, hdf, hm, hb, Event.isRemoteMut, Event.isBackup]

/-- C1: for every item processed by any command, no remote mutation (edit or
delete) happens unless backup is disabled or the backup append for the item
completed first: with backup enabled, any mutation event is preceded by a
completed backup event, and a raising backup append yields no mutation at
all, for comments and for posts alike. -/
theorem backup_before_mutation (cfg : Config) (u : ℚ) (c : Comment) (p : Post)
    (hb : cfg.backup_enabled = true) :
    ((process_comment cfg u c).1.any Event.isRemoteMut = true →
      ((process_comment cfg u c).1.takeWhile (fun e => !e.isRemoteMut)).any
        Event.isBackup = true) ∧
    (c.backupFails = true → (process_comment cfg u c).1.any Event.isRemoteMut = false) ∧
    ((process_post cfg u p).1.any Event.isRemoteMut = true →
      ((process_post cfg u p).1.takeWhile (fun e => !e.isRemoteMut)).any
        Event.isBackup = true) ∧
    (p.backupFails = true → (process_post cfg u p).1.any Event.isRemoteMut = false) :=
  ⟨(comment_backup_gate cfg u c hb).1, (comment_backup_gate cfg u c hb).2,
    (post_backup_gate cfg u p hb).1, (post_backup_gate cfg u p hb).2⟩

/-- Witness for the C1 theorem: a concrete comment whose backup append raises
is neither edited nor deleted. -/
theorem backup_before_mutation_witness :
    (process_comment cfgReal 0 cBackupFail).1.any Event.isRemoteMut = false :=
  (backup_before_mutation cfgReal 0 cBackupFail pText rfl).2.1 rfl

theorem process_comment_dry (cfg : Config) (u : ℚ) (c : Comment)
    (hd : cfg.dry_run = true) :
    (process_comment cfg u c).1.filter Event.isEditDeleteOrSleep = [] ∧
    (process_comment cfg u c).1.filter Event.isBackup =
      (process_comment (setDry cfg false) u c).1.filter Event.isBackup ∧
    (process_comment cfg u c).2 = (process_comment (setDry cfg false) u c).2 := by
  cases hex : should_exclude_content cfg (Content.comment c) <;>
    cases hbf : c.backupFails <;>
      cases hb : cfg.backup_enabled <;>
        cases he : c.editFails <;>
          cases hdl : c.deleteFails <;>
            simp [process_comment, comment_try, should_exclude_setDry,
              setDry_backup_enabled, setDry_dry_run, setDry_replacement_text,
              setDry_min_delay, setDry_max_delay, hex,
              hbf, hb, he, hdl, hd, Event.isEditDeleteOrSleep, Event.isBackup]

theorem process_post_dry (cfg : Config) (u : ℚ) (p : Post)
    (hd : cfg.dry_run = true) :
    (process_post cfg u p).1.filter Event.isEditDeleteOrSleep = [] ∧
    (process_post cfg u p).1.filter Event.isBackup =
      (process_post (setDry cfg false) u p).1.filter Event.isBackup ∧
    (process_post cfg u p).2 = (process_post (setDry cfg false) u p).2 := by
  cases hex : should_exclude_content cfg (Content.post p) <;>
    cases hbf : p.backupFails <;>
      cases hb : cfg.backup_enabled <;>
        cases hst : p.selftext != "" <;>
          cases he : p.editFails <;>
            cases hdl : p.deleteFails <;>
              cases hdf : p.downloadFails <;>
                cases hm : media_exts.any (fun ext => endsWithB (lowerStr p.url) ext) <;>
                  simp [process_post, post_try, download_media,
                    should_exclude_setDry, setDry_backup_enabled, setDry_dry_run,
                    setDry_replacement_text, setDry_min_delay, setDry_max_delay,
                    hex, hbf, hb, hst, he, hdl, hdf, hm, hd,
                    Event.isEditDeleteOrSleep, Event.isBackup]

theorem comments_pass_dry (cfg : Config) (rng : Nat → ℚ) (select : Comment → Bool)
    (hd : cfg.dry_run = true) :
    ∀ (items : List Comment) (i : Nat),
      (comments_pass cfg rng select items i).trace.filter Event.isEditDeleteOrSleep = [] ∧
      (comments_pass cfg rng select items i).trace.filter Event.isBackup =
        (comments_pass (setDry cfg false) rng select items i).trace.filter Event.isBackup ∧
      (comments_pass cfg rng select items i).progress =
        (comments_pass (setDry cfg false) rng select items i).progress ∧
      (comments_pass cfg rng select items i).processed =
        (comments_pass (setDry cfg false) rng select items i).processed ∧
      (comments_pass cfg rng select items i).removed =
        (comments_pass (setDry cfg false) rng select items i).removed
  | [], i => by simp [comments_pass]
  | c :: rest, i => by
    obtain ⟨ih1, ih2, ih3, ih4, ih5⟩ := comments_pass_dry cfg rng select hd rest (i + 1)
    obtain ⟨h1, h2, h3⟩ := process_comment_dry cfg (rng i) c hd
    cases hs : select c <;>
      simp [comments_pass, hs, List.filter_append, ih1, ih2, ih3, ih4, ih5, h1, h2, h3]

theorem posts_pass_dry (cfg : Config) (rng : Nat → ℚ) (select : Post → Bool)
    (hd : cfg.dry_run = true) :
    ∀ (items : List Post) (i : Nat),
      (posts_pass cfg rng select items i).trace.filter Event.isEditDeleteOrSleep = [] ∧
      (posts_pass cfg rng select items i).trace.filter Event.isBackup =
        (posts_pass (setDry cfg false) rng select items i).trace.filter Event.isBackup ∧
      (posts_pass cfg rng select items i).progress =
        (posts_pass (setDry cfg false) rng select items i).progress ∧
      (posts_pass cfg rng select items i).processed =
        (posts_pass (setDry cfg false) rng select items i).processed ∧
      (posts_pass cfg rng select items i).removed =
        (posts_pass (setDry cfg false) rng select items i).removed
  | [], i => by simp [posts_pass]
  | p :: rest, i => by
    obtain ⟨ih1, ih2, ih3, ih4, ih5⟩ := posts_pass_dry cfg rng select hd rest (i + 1)
    obtain ⟨h1, h2, h3⟩ := process_post_dry cfg (rng i) p hd
    cases hs : select p <;>
      simp [posts_pass, hs, List.filter_append, ih1, ih2, ih3, ih4, ih5, h1, h2, h3]

/-- C2: in a dry-run batch no edit, delete or sleep event occurs at all,
while the backup records written and the progress, processed and removed
counters are exactly those of the corresponding real (dry_run false) run,
for a comment pass and a post pass with arbitrary selection predicates. -/
theorem dry_run_batch (cfg : Config) (rng prng : Nat → ℚ) (select : Comment → Bool)
    (pselect : Post → Bool) (items : List Comment) (pitems : List Post)
    (hd : cfg.dry_run = true) :
    (comments_pass cfg rng select items 0).trace.filter Event.isEditDeleteOrSleep = [] ∧
    (posts_pass cfg prng pselect pitems 0).trace.filter Event.isEditDeleteOrSleep = [] ∧
    (comments_pass cfg rng select items 0).trace.filter Event.isBackup =
      (comments_pass (setDry cfg false) rng select items 0).trace.filter Event.isBackup ∧
    (posts_pass cfg prng pselect pitems 0).trace.filter Event.isBackup =
      (posts_pass (setDry cfg false) prng pselect pitems 0).trace.filter Event.isBackup ∧
    (comments_pass cfg rng select items 0).progress =
      (comments_pass (setDry cfg false) rng select items 0).progress ∧
    (comments_pass cfg rng select items 0).processed =
      (comments_pass (setDry cfg false) rng select items 0).processed ∧
    (comments_pass cfg rng select items 0).removed =
      (comments_pass (setDry cfg false) rng select items 0).removed ∧
    (posts_pass cfg prng pselect pitems 0).progress =
      (posts_pass (setDry cfg false) prng pselect pitems 0).progress ∧
    (posts_pass cfg prng pselect pitems 0).processed =
      (posts_pass (setDry cfg false) prng pselect pitems 0).processed ∧
    (posts_pass cfg prng pselect pitems 0).removed =
      (posts_pass (setDry cfg false) prng pselect pitems 0).removed := by
  obtain ⟨c1, c2, c3, c4, c5⟩ := comments_pass_dry cfg rng select hd items 0
  obtain ⟨q1, q2, q3, q4, q5⟩ := posts_pass_dry cfg prng pselect hd pitems 0
  exact ⟨c1, q1, c2, q2, c3, c4, c5, q3, q4, q5⟩

/-- Witness for the C2 theorem: a concrete dry-run pass over one comment
produces no edit, delete or sleep event. -/
theorem dry_run_batch_witness :
    (comments_pass cfgDry rng0 negative_karma_select [cClean] 0).trace.filter
      Event.isEditDeleteOrSleep = [] :=
  (dry_run_batch cfgDry rng0 rng0 negative_karma_select (fun _ => true)
    [cClean] [pText] rfl).1

/-- C3: an item satisfying the exclusion policy is never retired even when
selected: processing it yields no events at all (so no edit, no delete and
no backup record), and inside a pass a selected excluded item contributes
nothing to the batch trace. -/
theorem excluded_never_retired (cfg : Config) (u : ℚ) (c : Comment) (p : Post)
    (hc : should_exclude_content cfg (Content.comment c) = true)
    (hp : should_exclude_content cfg (Content.post p) = true) :
    process_comment cfg u c = ([], 0) ∧ process_post cfg u p = ([], 0) ∧
    ∀ (rng : Nat → ℚ) (select : Comment → Bool) (rest : List Comment) (i : Nat),
      select c = true →
      (comments_pass cfg rng select (c :: rest) i).trace =
        (comments_pass cfg rng select rest (i + 1)).trace := by
  refine ⟨by simp [process_comment, hc], by simp [process_post, hp], ?_⟩
  intro rng select rest i hs
  simp [comments_pass, hs, process_comment, hc]

/-- Witness for the C3 theorem: a negative-karma comment in the excluded
subreddit banned is processed to nothing. -/
theorem excluded_never_retired_witness :
    process_comment cfgExcl 0 cBanned = ([], 0) :=
  (excluded_never_retired cfgExcl 0 cBanned pFoo (by decide) (by decide)).1

theorem process_comment_progress (cfg : Config) (u : ℚ) (c : Comment) :
    (process_comment cfg u c).2 =
      if should_exclude_content cfg (Content.comment c) then 0 else 1 := by
  cases hex : should_exclude_content cfg (Content.comment c) <;>
    cases hr : (comment_try cfg u c).2 <;>
      simp [process_comment, hex, hr]

theorem process_post_progress (cfg : Config) (u : ℚ) (p : Post) :
    (process_post cfg u p).2 =
      if should_exclude_content cfg (Content.post p) then 0 else 1 := by
  cases hex : should_exclude_content cfg (Content.post p) <;>
    cases hr : (post_try cfg u p).2 <;>
      simp [process_post, hex, hr]

theorem comments_pass_progress (cfg : Config) (rng : Nat → ℚ) (select : Comment → Bool) :
    ∀ (items : List Comment) (i : Nat),
      (comments_pass cfg rng select items i).progress =
        (items.filter fun c =>
          !(select c && should_exclude_content cfg (Content.comment c))).length ∧
      (comments_pass cfg rng select items i).processed = items.length
  | [], i => by simp [comments_pass]
  | c :: rest, i => by
    obtain ⟨ih1, ih2⟩ := comments_pass_progress cfg rng select rest (i + 1)
    cases hs : select c <;>
      cases hex : should_exclude_content cfg (Content.comment c) <;>
        simp [comments_pass, hs, hex, process_comment_progress, ih1, ih2] <;>
          omega

theorem posts_pass_progress (cfg : Config) (rng : Nat → ℚ) (select : Post → Bool) :
    ∀ (items : List Post) (i : Nat),
      (posts_pass cfg rng select items i).progress =
        (items.filter fun p =>
          !(select p && should_exclude_content cfg (Content.post p))).length ∧
      (posts_pass cfg rng select items i).processed = items.length
  | [], i => by simp [posts_pass]
  | p :: rest, i => by
    obtain ⟨ih1, ih2⟩ := posts_pass_progress cfg rng select rest (i + 1)
    cases hs : select p <;>
      cases hex : should_exclude_content cfg (Content.post p) <;>
        simp [posts_pass, hs, hex, process_post_progress, ih1, ih2] <;>
          omega

/-- C4 counterexample: remove_negative_karma over a single stream item (a
selected comment sitting in an excluded subreddit) reports one processed
item but advances the progress bar by zero units, refuting the
one-unit-per-item claim. -/
theorem progress_per_item_cex :
    remove_negative_karma cfgExcl rng0 (Except.ok []) (Except.ok [cBanned]) =
      Except.ok (0, ⟨[], 0, 1, 1⟩) := rfl

/-- C4 amended: during a processing pass the progress bar advances by exactly
one unit for every item except a selected item that the exclusion policy
excludes, which advances it by zero units (process_comment and process_post
return without touching the progress bar for an excluded item); the
processed counter still counts every item. -/
theorem progress_per_item_amended (cfg : Config) (rng prng : Nat → ℚ)
    (select : Comment → Bool) (pselect : Post → Bool)
    (items : List Comment) (pitems : List Post) (i j : Nat) :
    ((comments_pass cfg rng select items i).progress =
      (items.filter fun c =>
        !(select c && should_exclude_content cfg (Content.comment c))).length ∧
     (comments_pass cfg rng select items i).processed = items.length) ∧
    ((posts_pass cfg prng pselect pitems j).progress =
      (pitems.filter fun p =>
        !(pselect p && should_exclude_content cfg (Content.post p))).length ∧
     (posts_pass cfg prng pselect pitems j).processed = pitems.length) :=
  ⟨comments_pass_progress cfg rng select items i,
    posts_pass_progress cfg prng pselect pitems j⟩

/-- C5 counterexample: with the current time at epoch second 86400 and
days = 1, a comment created at epoch 0 is exactly one day old; the
greater-or-equal rule of the claim selects it, but the selection used by
remove_old_comments does not. -/
theorem age_boundary_cex :
    old_comment_select 86400 1 cEpoch = false ∧
    spec_age_selected 86400 1 cEpoch.created_utc = true := by decide

/-- C5 amended: the age-based commands select an item exactly when the
elapsed time strictly exceeds the given number of days; an item exactly
days old is not selected. -/
theorem age_selection_strict (now days : Int) (c : Comment) (p : Post) :
    (old_comment_select now days c = true ↔ days * 86400 < now - c.created_utc) ∧
    (old_post_select now days p = true ↔ days * 86400 < now - p.created_utc) := by
  constructor <;> simp [old_comment_select, old_post_select] <;> omega

/-- C6 counterexample: a comment whose body is empty is nevertheless edited
during a real retirement, refuting the claim that an item with empty primary
text receives no edit call. -/
theorem edit_on_empty_body_cex :
    cEmptyBody.body = "" ∧
    (process_comment cfgReal 0 cEmptyBody).1.any Event.isEdit = true := by decide

/-- C6 amended: in a real retirement that raises no exception, a comment is
always edited to the replacement text (even when its body is empty) and then
deleted, while a post is edited exactly when its selftext is non-empty and
is then deleted. -/
theorem edit_then_delete_amended (cfg : Config) (u : ℚ) (c : Comment) (p : Post)
    (hreal : cfg.dry_run = false)
    (hexC : should_exclude_content cfg (Content.comment c) = false)
    (hexP : should_exclude_content cfg (Content.post p) = false)
    (hbkC : cfg.backup_enabled = false ∨ c.backupFails = false)
    (hbkP : cfg.backup_enabled = false ∨ p.backupFails = false)
    (heC : c.editFails = false) (hdC : c.deleteFails = false)
    (heP : p.editFails = false) (hdP : p.deleteFails = false) :
    Event.edit cfg.replacement_text ∈ (process_comment cfg u c).1 ∧
    Event.delete ∈ (process_comment cfg u c).1 ∧
    ((process_post cfg u p).1.any Event.isEdit = true ↔ p.selftext ≠ "") ∧
    Event.delete ∈ (process_post cfg u p).1 := by
  by_cases hst : p.selftext = "" <;>
    cases hb : cfg.backup_enabled <;>
      cases hbf1 : c.backupFails <;>
        cases hbf2 : p.backupFails <;>
          cases hm : media_exts.any (fun ext => endsWithB (lowerStr p.url) ext) <;>
            cases hdf : p.downloadFails <;>
              simp_all [process_comment, comment_try, process_post, post_try,
                download_media, Event.isEdit]

/-- Witness for the C6 theorem: the concrete text post pText is edited and
the media post pMedia with empty selftext is deleted without an edit. -/
theorem edit_then_delete_amended_witness :
    Event.edit cfgReal.replacement_text ∈ (process_comment cfgReal 0 cClean).1 :=
  (edit_then_delete_amended cfgReal 0 cClean pMedia rfl (by decide) (by decide)
    (Or.inr rfl) (Or.inr rfl) rfl rfl rfl rfl).1

/-- C7: an exception in the edit or the delete of a single item, comment or
post, is caught: the item is logged as failed and the command still
completes, traversing the remaining items; a command aborts exactly when the
processing stream itself cannot be established, while a failing counting
pass is tolerated and reports zero. -/
theorem per_item_failure_isolated (cfg : Config) (rng prng : Nat → ℚ)
    (select : Comment → Bool) (pselect : Post → Bool)
    (c : Comment) (rest : List Comment) (p : Post) (prest : List Post)
    (countStream : Except Unit (List Comment))
    (pcountStream : Except Unit (List Post))
    (hselC : select c = true)
    (hexC : should_exclude_content cfg (Content.comment c) = false)
    (hselP : pselect p = true)
    (hexP : should_exclude_content cfg (Content.post p) = false)
    (hreal : cfg.dry_run = false)
    (hbkC : cfg.backup_enabled = false ∨ c.backupFails = false)
    (hbkP : cfg.backup_enabled = false ∨ p.backupFails = false)
    (hfailC : c.editFails = true ∨ c.deleteFails = true)
    (hfailP : (p.selftext ≠ "" ∧ p.editFails = true) ∨ p.deleteFails = true) :
    Event.logError ∈ (process_comment cfg (rng 0) c).1 ∧
    Event.logError ∈ (process_post cfg (prng 0) p).1 ∧
    run_comments_command cfg rng select countStream (Except.ok (c :: rest)) =
      Except.ok (get_comment_count countStream,
        ⟨(process_comment cfg (rng 0) c).1 ++
            (comments_pass cfg rng select rest 1).trace,
          (process_comment cfg (rng 0) c).2 +
            (comments_pass cfg rng select rest 1).progress,
          1 + (comments_pass cfg rng select rest 1).processed,
          1 + (comments_pass cfg rng select rest 1).removed⟩) ∧
    run_posts_command cfg prng pselect pcountStream (Except.ok (p :: prest)) =
      Except.ok (get_post_count pcountStream,
        ⟨(process_post cfg (prng 0) p).1 ++
            (posts_pass cfg prng pselect prest 1).trace,
          (process_post cfg (prng 0) p).2 +
            (posts_pass cfg prng pselect prest 1).progress,
          1 + (posts_pass cfg prng pselect prest 1).processed,
          1 + (posts_pass cfg prng pselect prest 1).removed⟩) ∧
    run_comments_command cfg rng select countStream (Except.error ()) =
      Except.error () ∧
    run_posts_command cfg prng pselect pcountStream (Except.error ()) =
      Except.error () ∧
    get_comment_count (Except.error ()) = 0 ∧
    get_post_count (Except.error ()) = 0 := by
  refine ⟨?_, ?_, ?_, ?_, rfl, rfl, rfl, rfl⟩
  · rcases hfailC with hf | hf <;>
      cases hb : cfg.backup_enabled <;>
        cases hbf : c.backupFails <;>
          cases he : c.editFails <;>
            cases hdl : c.deleteFails <;>
              simp_all [process_comment, comment_try]
  · by_cases hst : p.selftext = "" <;>
      rcases hfailP with hf | hf <;>
        cases hb : cfg.backup_enabled <;>
          cases hbf : p.backupFails <;>
            cases he : p.editFails <;>
              cases hdl : p.deleteFails <;>
                cases hm : media_exts.any (fun ext => endsWithB (lowerStr p.url) ext) <;>
                  cases hdf : p.downloadFails <;>
                    simp_all [process_post, post_try, download_media]
  · simp [run_comments_command, comments_pass, hselC]
  · simp [run_posts_command, posts_pass, hselP]

/-- Witness for the C7 theorem: a concrete comment whose edit raises and a
concrete post whose delete raises are both logged as failed. -/
theorem per_item_failure_isolated_witness :
    Event.logError ∈ (process_comment cfgReal (rng0 0) cEditFail).1 ∧
    Event.logError ∈ (process_post cfgReal (rng0 0) pDeleteFail).1 :=
  ⟨(per_item_failure_isolated cfgReal rng0 rng0 negative_karma_select
      (fun _ => true) cEditFail [] pDeleteFail [] (Except.ok []) (Except.ok [])
      (by decide) (by decide) rfl (by decide) rfl
      (Or.inr rfl) (Or.inr rfl) (Or.inl rfl) (Or.inr rfl)).1,
    (per_item_failure_isolated cfgReal rng0 rng0 negative_karma_select
      (fun _ => true) cEditFail [] pDeleteFail [] (Except.ok []) (Except.ok [])
      (by decide) (by decide) rfl (by decide) rfl
      (Or.inr rfl) (Or.inr rfl) (Or.inl rfl) (Or.inr rfl)).2.1⟩

/-- C8 counterexample: a comment whose edit succeeds and whose delete then
raises has been really mutated (an edit event occurred in a non-dry run) yet
no sleep occurs for it, refuting the claim that a sleep follows every real
mutation. -/
theorem sleep_after_mutation_cex :
    cfgReal.dry_run = false ∧
    (process_comment cfgReal 0 cDeleteFail).1.any Event.isRemoteMut = true ∧
    (process_comment cfgReal 0 cDeleteFail).1.any Event.isSleep = false := by decide

theorem comment_sleep_iff (cfg : Config) (u : ℚ) (c : Comment)
    (hab : cfg.min_delay ≤ cfg.max_delay) (h0 : 0 ≤ u) (h1 : u ≤ 1) :
    (∀ d : ℚ, Event.sleep d ∈ (process_comment cfg u c).1 →
      cfg.min_delay ≤ d ∧ d ≤ cfg.max_delay) ∧
    ((process_comment cfg u c).1.any Event.isSleep = true ↔
      (should_exclude_content cfg (Content.comment c) = false ∧
        (cfg.backup_enabled = false ∨ c.backupFails = false) ∧
        cfg.dry_run = false ∧ c.editFails = false ∧ c.deleteFails = false)) ∧
    ((process_comment cfg u c).1.any Event.isSleep = true →
      Event.delete ∈ (process_comment cfg u c).1) := by
  cases hex : should_exclude_content cfg (Content.comment c) <;>
    cases hb : cfg.backup_enabled <;>
      cases hbf : c.backupFails <;>
        cases hd : cfg.dry_run <;>
          cases he : c.editFails <;>
            cases hdl : c.deleteFails <;>
              simp [process_comment, comment_try, hex, hb, hbf, hd, he, hdl,
                Event.isSleep] <;>
                exact uniform_bounds cfg.min_delay cfg.max_delay u hab h0 h1

theorem post_sleep_iff (cfg : Config) (u : ℚ) (p : Post)
    (hab : cfg.min_delay ≤ cfg.max_delay) (h0 : 0 ≤ u) (h1 : u ≤ 1) :
    (∀ d : ℚ, Event.sleep d ∈ (process_post cfg u p).1 →
      cfg.min_delay ≤ d ∧ d ≤ cfg.max_delay) ∧
    ((process_post cfg u p).1.any Event.isSleep = true ↔
      (should_exclude_content cfg (Content.post p) = false ∧
        (cfg.backup_enabled = false ∨ p.backupFails = false) ∧
        cfg.dry_run = false ∧ (p.selftext = "" ∨ p.editFails = false) ∧
        p.deleteFails = false)) ∧
    ((process_post cfg u p).1.any Event.isSleep = true →
      Event.delete ∈ (process_post cfg u p).1) := by
  by_cases hst : p.selftext = "" <;>
    cases hex : should_exclude_content cfg (Content.post p) <;>
      cases hb : cfg.backup_enabled <;>
        cases hbf : p.backupFails <;>
          cases hd : cfg.dry_run <;>
            cases he : p.editFails <;>
              cases hdl : p.deleteFails <;>
                cases hm : media_exts.any (fun ext => endsWithB (lowerStr p.url) ext) <;>
                  cases hdf : p.downloadFails <;>
                    simp [process_post, post_try, download_media, hex, hb, hbf,
                      hd, he, hdl, hm, hdf, hst, Event.isSleep] <;>
                      exact uniform_bounds cfg.min_delay cfg.max_delay u hab h0 h1

/-- C8 amended: given min_delay less-or-equal max_delay and an rng sample in
the unit interval, every sampled sleep duration lies in the delay interval,
and a sleep occurs exactly for an item whose real retirement completes
without any exception: never in dry run, never for an excluded item, and not
when the edit or the delete raises (even though a successful edit followed
by a failing delete has already mutated the item); when a sleep occurs it
accompanies the delete of that item. -/
theorem sleep_on_completed_retirement (cfg : Config) (u : ℚ) (c : Comment) (p : Post)
    (hab : cfg.min_delay ≤ cfg.max_delay) (h0 : 0 ≤ u) (h1 : u ≤ 1) :
    ((∀ d : ℚ, Event.sleep d ∈ (process_comment cfg u c).1 →
      cfg.min_delay ≤ d ∧ d ≤ cfg.max_delay) ∧
    ((process_comment cfg u c).1.any Event.isSleep = true ↔
      (should_exclude_content cfg (Content.comment c) = false ∧
        (cfg.backup_enabled = false ∨ c.backupFails = false) ∧
        cfg.dry_run = false ∧ c.editFails = false ∧ c.deleteFails = false)) ∧
    ((process_comment cfg u c).1.any Event.isSleep = true →
      Event.delete ∈ (process_comment cfg u c).1)) ∧
    ((∀ d : ℚ, Event.sleep d ∈ (process_post cfg u p).1 →
      cfg.min_delay ≤ d ∧ d ≤ cfg.max_delay) ∧
    ((process_post cfg u p).1.any Event.isSleep = true ↔
      (should_exclude_content cfg (Content.post p) = false ∧
        (cfg.backup_enabled = false ∨ p.backupFails = false) ∧
        cfg.dry_run = false ∧ (p.selftext = "" ∨ p.editFails = false) ∧
        p.deleteFails = false)) ∧
    ((process_post cfg u p).1.any Event.isSleep = true →
      Event.delete ∈ (process_post cfg u p).1)) :=
  ⟨comment_sleep_iff cfg u c hab h0 h1, post_sleep_iff cfg u p hab h0 h1⟩

/-- Witness for the C8 theorem: the clean comment cClean sleeps in a real
run of cfgReal. -/
theorem sleep_on_completed_retirement_witness :
    (process_comment cfgReal 0 cClean).1.any Event.isSleep = true :=
  ((sleep_on_completed_retirement cfgReal 0 cClean pText (by decide)
    (by decide) (by decide)).1.2.1).mpr
    ⟨by decide, Or.inr rfl, rfl, rfl, rfl⟩

/-- C9 counterexample: with the empty string among the excluded keywords, a
post with no self-text is excluded by the code (the keyword is checked
against the empty string and matches), while the claimed rule skips the
keyword check for such a post and does not exclude it. -/
theorem exclusion_empty_keyword_cex :
    pMedia.selftext = "" ∧
    should_exclude_content cfgEmptyKw (Content.post pMedia) = true ∧
    spec_excluded cfgEmptyKw (Content.post pMedia) = false := by decide

/-- C9 amended: exclusion holds exactly when the subreddit is a
case-sensitive exact member of excluded_subs or some excluded keyword is a
case-insensitive substring of the primary text, where a post with no
self-text is checked against the empty string (so the keyword check is not
skipped: the empty keyword matches it); the post title is never consulted. -/
theorem exclusion_characterization (cfg : Config) (c : Comment) (p : Post)
    (t : String) :
    (should_exclude_content cfg (Content.comment c) = true ↔
      (c.subreddit ∈ cfg.excluded_subs ∨
        ∃ kw ∈ cfg.excluded_keywords,
          (lowerStr kw).toList <:+: (lowerStr c.body).toList)) ∧
    (should_exclude_content cfg (Content.post p) = true ↔
      (p.subreddit ∈ cfg.excluded_subs ∨
        ∃ kw ∈ cfg.excluded_keywords,
          (lowerStr kw).toList <:+: (lowerStr p.selftext).toList)) ∧
    should_exclude_content cfg (Content.post (setTitle p t)) =
      should_exclude_content cfg (Content.post p) := by
  have hmemC : cfg.excluded_subs.contains c.subreddit = true ↔
      c.subreddit ∈ cfg.excluded_subs := by
    simp [List.contains, List.elem_iff]
  have hmemP : cfg.excluded_subs.contains p.subreddit = true ↔
      p.subreddit ∈ cfg.excluded_subs := by
    simp [List.contains, List.elem_iff]
  refine ⟨?_, ?_, rfl⟩
  · cases hc : cfg.excluded_subs.contains c.subreddit
    · have hn : c.subreddit ∉ cfg.excluded_subs := by
        intro h
        have h2 := hmemC.mpr h
        rw [hc] at h2
        exact Bool.noConfusion h2
      simp [should_exclude_content, Content.sub, Content.exclusionText, hc,
        List.any_eq_true, substrB_iff, hn]
    · have hy : c.subreddit ∈ cfg.excluded_subs := hmemC.mp hc
      simp [should_exclude_content, Content.sub, hc, hy]
  · cases hc : cfg.excluded_subs.contains p.subreddit
    · have hn : p.subreddit ∉ cfg.excluded_subs := by
        intro h
        have h2 := hmemP.mpr h
        rw [hc] at h2
        exact Bool.noConfusion h2
      simp [should_exclude_content, Content.sub, Content.exclusionText, hc,
        List.any_eq_true, substrB_iff, hn]
    · have hy : p.subreddit ∈ cfg.excluded_subs := hmemP.mp hc
      simp [should_exclude_content, Content.sub, hc, hy]

/-- C10 counterexample: a non-excluded post with a recognised media url
whose backup append raises gets no download attempt at all, even though
dry_run is true, because backup_content runs before download_media inside
the same try block; this refutes the claim that every non-excluded media
post is downloaded. -/
theorem media_download_cex :
    should_exclude_content cfgDry (Content.post pMediaBackupFail) = false ∧
    has_media_ext pMediaBackupFail.url = true ∧
    cfgDry.dry_run = true ∧
    (process_post cfgDry 0 pMediaBackupFail).1.any Event.isDownload = false := by
  decide

/-- C10 amended: for a non-excluded post whose url ends in a recognised
media extension and whose backup append does not raise first (backup
disabled or the append succeeding), the media download is attempted
whatever the value of dry_run: the download event is in the trace, and the
download events of the trace are unchanged when dry_run is toggled. -/
theorem media_download_in_dry_run (cfg : Config) (u : ℚ) (p : Post)
    (hex : should_exclude_content cfg (Content.post p) = false)
    (hbk : cfg.backup_enabled = false ∨ p.backupFails = false)
    (hmedia : has_media_ext p.url = true) :
    Event.download (lowerStr p.url) ∈ (process_post cfg u p).1 ∧
    ∀ b : Bool, (process_post (setDry cfg b) u p).1.filter Event.isDownload =
      (process_post cfg u p).1.filter Event.isDownload := by
  have hm : media_exts.any (fun ext => endsWithB (lowerStr p.url) ext) = true := by
    simpa [has_media_ext] using hmedia
  constructor
  · cases hb : cfg.backup_enabled <;>
      cases hbf : p.backupFails <;>
        cases hd : cfg.dry_run <;>
          cases hst : p.selftext == "" <;>
            cases he : p.editFails <;>
              cases hdl : p.deleteFails <;>
                cases hdf : p.downloadFails <;>
                  simp_all [process_post, post_try, download_media]
  · intro b
    cases hb : cfg.backup_enabled <;>
      cases hbf : p.backupFails <;>
        cases hd : cfg.dry_run <;>
          cases b <;>
            cases hst : p.selftext == "" <;>
              cases he : p.editFails <;>
                cases hdl : p.deleteFails <;>
                  cases hdf : p.downloadFails <;>
                    simp_all [process_post, post_try, download_media,
                      should_exclude_setDry, setDry_backup_enabled, setDry_dry_run,
                      setDry_replacement_text, setDry_min_delay, setDry_max_delay,
                      Event.isDownload]

/-- Witness for the C10 theorem: the media post pMedia is downloaded in a
dry run. -/
theorem media_download_in_dry_run_witness :
    Event.download (lowerStr pMedia.url) ∈ (process_post cfgDry 0 pMedia).1 :=
  (media_download_in_dry_run cfgDry 0 pMedia (by decide) (Or.inr rfl)
    (by decide)).1

end RCC
